import Mathlib

/-!
Shallow embedding of the ASO ranking pipeline (`asoranking.py`).

Datasets (pandas DataFrames in the source) are embedded as Lean lists of
structures, one structure per row shape.  The SQL queries executed through
the external warehouse are external collaborators: each is modelled by
taking its (country/period-scoped) result table as an input list, with the
query's own WHERE conditions (the CPU score band) applied in Lean exactly
where the source builds them into the query string.  Python `int()` and the
`'%d'` string formatting of the band bounds truncate toward zero, which is
modelled by `truncQ`.  The GeoIP ISP database is modelled as a function
`String → Option (ℤ × String)`; `none` covers every failure the source
catches (`AddressNotFoundError`, `TypeError`, `ValueError`).
-/

set_option linter.unusedVariables false

namespace ASORanking

/-- Truncation toward zero on rationals: Python `int(x)` and `'%d' % x`. -/
def truncQ (q : ℚ) : ℤ := if 0 ≤ q then ⌊q⌋ else ⌈q⌉

/-- One row of the navigation-timing dataset, after the `add_isp` enrichment
columns `asn`/`aso` exist.  `type` is `event.netinfoConnectionType` (may be
unset), `transfersize` may be absent (NaN in pandas), `mobilemode` is the
mobile-site mode (may be unset). -/
structure TimingRow where
  device_family : String
  ip : String
  ttfb : ℚ
  plt : ℚ
  type : Option String
  pageviewtoken : String
  transfersize : Option ℚ
  mobilemode : Option String
  asn : ℤ
  aso : String
deriving Repr, DecidableEq

/-- One row of the CPU-benchmark join query result (`nt.ip`,
`nt.event.pageviewToken`, `cb.event.score`), before ISP enrichment. -/
structure RawCpuRow where
  ip : String
  pageviewtoken : String
  score : ℤ
deriving Repr, DecidableEq

/-- A CPU-benchmark row after `add_isp` enrichment. -/
structure CpuRow where
  ip : String
  pageviewtoken : String
  score : ℤ
  asn : ℤ
  aso : String
deriving Repr, DecidableEq

/-- One row of a per-country CPU-median table
(`fetch_cpu_benchmark_medians` output). -/
structure MedianRow where
  country : String
  score : ℚ
deriving Repr, DecidableEq

/-- One emitted ranking tuple
`(aso, int(median_ttfb), int(median_plt), int(median_cpu_score),
int(median_transfersize), sample size)`. -/
structure RankingEntry where
  aso : String
  ttfb : ℤ
  plt : ℤ
  cpu : ℤ
  transfersize : ℤ
  sample_size : ℕ
deriving Repr, DecidableEq

/-- The source's `ASORanking.add_isp` on the navigation-timing dataset: every row gets
`asn`/`aso` columns from the GeoIP lookup of its `ip`; on lookup failure the
sentinel `(0, "")` is assigned and the loop continues. -/
def add_isp (lookup : String → Option (ℤ × String)) (dataset : List TimingRow) :
    List TimingRow :=
  dataset.map (fun r =>
    match lookup r.ip with
    | some p => ⟨r.device_family, r.ip, r.ttfb, r.plt, r.type, r.pageviewtoken,
        r.transfersize, r.mobilemode, p.1, p.2⟩
    | none => ⟨r.device_family, r.ip, r.ttfb, r.plt, r.type, r.pageviewtoken,
        r.transfersize, r.mobilemode, 0, ""⟩)

/-- The source's `ASORanking.add_isp` as applied to the CPU-benchmark dataset (the source
function is duck-typed over the `ip` column). -/
def add_isp_cpu (lookup : String → Option (ℤ × String)) (dataset : List RawCpuRow) :
    List CpuRow :=
  dataset.map (fun r =>
    match lookup r.ip with
    | some p => ⟨r.ip, r.pageviewtoken, r.score, p.1, p.2⟩
    | none => ⟨r.ip, r.pageviewtoken, r.score, 0, ""⟩)

/-- pandas `drop_duplicates(['pageviewtoken'], keep='first')`: keep the first
row for each token.  `seen` accumulates tokens already kept. -/
def dropDupByToken {α : Type} (token : α → String) : List α → List String → List α
  | [], _ => []
  | r :: rs, seen =>
      if token r ∈ seen then dropDupByToken token rs seen
      else r :: dropDupByToken token rs (token r :: seen)

/-- Median of an already sorted list, pandas semantics: middle element for odd
length, mean of the two middle elements for even length. -/
def medianOfSorted (s : List ℚ) : ℚ :=
  if s.length % 2 = 1 then s.getD (s.length / 2) 0
  else (s.getD (s.length / 2 - 1) 0 + s.getD (s.length / 2) 0) / 2

/-- pandas `Series.median()` on a list of (non-NaN) values. -/
def medianQ (l : List ℚ) : ℚ :=
  medianOfSorted (List.insertionSort (· ≤ ·) l)

/-- The sorted unique group keys of a pandas `groupby` (groupby sorts keys). -/
def sortedUniqueAsos (asos : List String) : List String :=
  List.insertionSort (· ≤ ·) asos.dedup

/-- pandas `ds.groupby(ds.aso)[[col]].median()` for a numeric column `val`:
a key-sorted table of per-group medians. -/
def groupMedianBy {α : Type} (key : α → String) (val : α → ℚ) (ds : List α) :
    List (String × ℚ) :=
  (sortedUniqueAsos (ds.map key)).map
    (fun k => (k, medianQ ((ds.filter (fun r => key r == k)).map val)))

/-- pandas `ds.groupby(ds.aso)[[col]].median()` for a column with missing values
(`transfersize`): pandas skips NaN inside a group and yields NaN (here
`none`) when a group has no values at all. -/
def groupMedianOptBy {α : Type} (key : α → String) (val : α → Option ℚ) (ds : List α) :
    List (String × Option ℚ) :=
  (sortedUniqueAsos (ds.map key)).map
    (fun k =>
      (k, if ((ds.filter (fun r => key r == k)).filterMap val).isEmpty then none
          else some (medianQ ((ds.filter (fun r => key r == k)).filterMap val))))

/-- The source's `ASORanking.get_asns_by_type`: the distinct ASNs of rows whose connection
type is `cellular` when `network == 'cellular'`, else those of rows whose
connection type is `wifi`. -/
def get_asns_by_type (navtiming_dataset : List TimingRow) (network : String) :
    List ℤ :=
  let cellular_asns :=
    ((navtiming_dataset.filter (fun r => r.type == some "cellular")).map (·.asn)).dedup
  if network == "cellular" then cellular_asns
  else ((navtiming_dataset.filter (fun r => r.type == some "wifi")).map (·.asn)).dedup

/-- The source's `ASORanking.fetch_and_combine_cpubenchmark`.  `cpu_source` stands for the
country/period-scoped result of the benchmark join query before its score
conditions; the query string renders `mincpu`/`maxcpu` with `'%d'`, so the
executed conditions are `score > truncQ mincpu AND score < truncQ maxcpu`.
The result is deduplicated by page-view token, enriched, and the timing
dataset is restricted to tokens that have a benchmark row. -/
def fetch_and_combine_cpubenchmark (lookup : String → Option (ℤ × String))
    (cpu_source : List RawCpuRow) (navtiming_dataset : List TimingRow)
    (mincpu maxcpu : ℚ) : List TimingRow × List CpuRow :=
  let fetched := cpu_source.filter
    (fun r => decide (truncQ mincpu < r.score) && decide (r.score < truncQ maxcpu))
  let cpu_dataset := add_isp_cpu lookup (dropDupByToken (·.pageviewtoken) fetched [])
  let navtiming_combined := navtiming_dataset.filter
    (fun r => (cpu_dataset.map (·.pageviewtoken)).contains r.pageviewtoken)
  (navtiming_combined, cpu_dataset)

/-- The whitelist step of `generate_ranking` (lines 212-217): compute the
ASNs for the network type from `ds` and keep only rows of `ds` whose ASN is
whitelisted.  In the source both the classification and the filtering are
applied to the same dataset. -/
def whitelistFilterStep (ds : List TimingRow) (network : String) : List TimingRow :=
  let whitelisted_asns := get_asns_by_type ds network
  ds.filter (fun r => whitelisted_asns.contains r.asn)

/-- The page-variant filter of `generate_ranking` (lines 222-225): cellular
keeps only mobile-mode `stable`; wifi drops `stable`, `alpha` and `beta`
(rows with no mobile mode pass the wifi filter). -/
def variantFilterStep (ds : List TimingRow) (network : String) : List TimingRow :=
  if network == "cellular" then ds.filter (fun r => r.mobilemode == some "stable")
  else ds.filter (fun r => !([some "stable", some "alpha", some "beta"].contains r.mobilemode))

/-- The body of the final loop of `generate_ranking` (lines 238-273) for one
`(aso, median_ttfb)` pair of the sorted TTFB table: skip the organization if
its benchmark sample count is below the threshold, otherwise look up its
medians (default 0 when absent, NaN transfer-size median replaced by 0) and
emit the tuple with all metric medians truncated by `int()`. -/
def rankingEntryFor (cpubenchmark_dataset : List CpuRow)
    (median_cpubenchmark_by_aso median_plt_by_aso : List (String × ℚ))
    (median_transfersize_by_aso : List (String × Option ℚ))
    (threshold : ℕ) (p : String × ℚ) : Option RankingEntry :=
  let aso := p.1
  let just_this_aso_cpubenchmark := cpubenchmark_dataset.filter (fun r => r.aso == aso)
  if just_this_aso_cpubenchmark.length < threshold then none
  else
    let median_cpu_score := median_cpubenchmark_by_aso.foldl
      (fun acc q => if q.1 == aso then q.2 else acc) 0
    let median_plt := median_plt_by_aso.foldl
      (fun acc q => if q.1 == aso then q.2 else acc) 0
    let median_transfersize := median_transfersize_by_aso.foldl
      (fun acc q => if q.1 == aso then q.2.getD 0 else acc) 0
    some ⟨aso, truncQ p.2, truncQ median_plt, truncQ median_cpu_score,
      truncQ median_transfersize, just_this_aso_cpubenchmark.length⟩

/-- Lines 228-275 of `generate_ranking`: group the (whitelist- and
variant-filtered) timing rows and the benchmark rows by ASO, sort the TTFB
table by median TTFB, and build the final ranking list. -/
def rankingLoop (nav : List TimingRow) (cpubenchmark_dataset : List CpuRow)
    (threshold : ℕ) : List RankingEntry :=
  let median_ttfb_by_aso := groupMedianBy (·.aso) (·.ttfb) nav
  let median_cpubenchmark_by_aso :=
    groupMedianBy (·.aso) (fun r => (r.score : ℚ)) cpubenchmark_dataset
  let median_plt_by_aso := groupMedianBy (·.aso) (·.plt) nav
  let median_transfersize_by_aso := groupMedianOptBy (·.aso) (·.transfersize) nav
  let sorted_ttfb := List.insertionSort (fun a b => a.2 ≤ b.2) median_ttfb_by_aso
  sorted_ttfb.filterMap
    (rankingEntryFor cpubenchmark_dataset median_cpubenchmark_by_aso
      median_plt_by_aso median_transfersize_by_aso threshold)

/-- pandas `Series.item()`: succeeds only on a one-element series. -/
def seriesItem (l : List ℚ) : Option ℚ :=
  match l with
  | [x] => some x
  | _ => none

/-- The message of the `ValueError` pandas raises from `.item()` on a series
that does not have exactly one element. -/
def itemErrorMsg : String := "can only convert an array of size 1 to a Python scalar"

/-- The score column of the relevant medians table restricted to `country`
(`cellular_medians[cellular_medians.country == country]['score']`, resp. the
wifi branch). -/
def mediansForCountry (cellular_medians wifi_medians : List MedianRow)
    (network country : String) : List ℚ :=
  if network == "cellular" then
    (cellular_medians.filter (fun r => r.country == country)).map MedianRow.score
  else
    (wifi_medians.filter (fun r => r.country == country)).map MedianRow.score

/-- The source's `ASORanking.generate_ranking`.  Faithful to the source, including the
slip at line 217: the whitelist filter and every timing groupby are applied
to the original `navtiming_dataset`, while the CPU-normalized
`navtiming_dataset_filtered` returned by `fetch_and_combine_cpubenchmark`
is bound and never used. -/
def generate_ranking (lookup : String → Option (ℤ × String))
    (cpu_source : List RawCpuRow) (navtiming_dataset : List TimingRow)
    (cpu_span : ℤ) (country network : String)
    (cellular_medians wifi_medians : List MedianRow) (threshold : ℕ) :
    Except String (List RankingEntry) :=
  match seriesItem (mediansForCountry cellular_medians wifi_medians network country) with
  | none => Except.error itemErrorMsg
  | some mediancpu =>
    let mincpu : ℚ := mediancpu - (cpu_span : ℚ) / 2
    let maxcpu : ℚ := mediancpu + (cpu_span : ℚ) / 2
    let combined := fetch_and_combine_cpubenchmark lookup cpu_source
      navtiming_dataset mincpu maxcpu
    let navtiming_dataset_filtered := combined.1
    let cpubenchmark_dataset := combined.2
    let nav := variantFilterStep (whitelistFilterStep navtiming_dataset network) network
    Except.ok (rankingLoop nav cpubenchmark_dataset threshold)

/-- Modelled from the spec (§4.6 steps 3-5), for comparison with
`generate_ranking`: identical except that the ASN whitelist (still computed
from the unfiltered dataset) and the page-variant filter are applied to the
CPU-normalized timing dataset `navtiming_dataset_filtered`, which is then
grouped — the behaviour the spec describes. -/
def generate_ranking_spec (lookup : String → Option (ℤ × String))
    (cpu_source : List RawCpuRow) (navtiming_dataset : List TimingRow)
    (cpu_span : ℤ) (country network : String)
    (cellular_medians wifi_medians : List MedianRow) (threshold : ℕ) :
    Except String (List RankingEntry) :=
  match seriesItem (mediansForCountry cellular_medians wifi_medians network country) with
  | none => Except.error itemErrorMsg
  | some mediancpu =>
    let mincpu : ℚ := mediancpu - (cpu_span : ℚ) / 2
    let maxcpu : ℚ := mediancpu + (cpu_span : ℚ) / 2
    let combined := fetch_and_combine_cpubenchmark lookup cpu_source
      navtiming_dataset mincpu maxcpu
    let navtiming_dataset_filtered := combined.1
    let cpubenchmark_dataset := combined.2
    let whitelisted_asns := get_asns_by_type navtiming_dataset network
    let nav1 := navtiming_dataset_filtered.filter
      (fun r => whitelisted_asns.contains r.asn)
    let nav := variantFilterStep nav1 network
    Except.ok (rankingLoop nav cpubenchmark_dataset threshold)

instance : IsTotal (String × ℚ) (fun a b => a.2 ≤ b.2) :=
  ⟨fun a b => le_total a.2 b.2⟩

instance : IsTrans (String × ℚ) (fun a b => a.2 ≤ b.2) :=
  ⟨fun _ _ _ h h' => le_trans h h'⟩

instance {ε α : Type} [DecidableEq ε] [DecidableEq α] : DecidableEq (Except ε α) :=
  fun x y =>
  match x, y with
  | .error u, .error v =>
      if h : u = v then .isTrue (by subst h; rfl)
      else .isFalse (by intro hh; cases hh; exact h rfl)
  | .error _, .ok _ => .isFalse (by intro h; cases h)
  | .ok _, .error _ => .isFalse (by intro h; cases h)
  | .ok u, .ok v =>
      if h : u = v then .isTrue (by subst h; rfl)
      else .isFalse (by intro hh; cases hh; exact h rfl)

/-! ### Helper lemmas -/

theorem truncQ_zero : truncQ 0 = 0 := by
  simp [truncQ]

theorem lt_of_truncQ_lt {q : ℚ} {z : ℤ} (h : truncQ q < z) : q < (z : ℚ) := by
  unfold truncQ at h
  split at h
  · exact Int.floor_lt.mp h
  · exact lt_of_le_of_lt (Int.le_ceil q) (by exact_mod_cast h)

theorem lt_of_lt_truncQ {q : ℚ} {z : ℤ} (h : z < truncQ q) : (z : ℚ) < q := by
  unfold truncQ at h
  split at h
  · exact lt_of_lt_of_le (by exact_mod_cast h) (Int.floor_le q)
  · exact Int.lt_ceil.mp h

theorem truncQ_mono {a b : ℚ} (h : a ≤ b) : truncQ a ≤ truncQ b := by
  unfold truncQ
  split <;> split
  · exact Int.floor_le_floor h
  · rename_i ha hb
    exact absurd (le_trans ha h) hb
  · rename_i ha hb
    calc ⌈a⌉ ≤ 0 := Int.ceil_le.mpr (by exact_mod_cast le_of_lt (lt_of_not_ge ha))
      _ ≤ ⌊b⌋ := Int.floor_nonneg.mpr hb
  · exact Int.ceil_le_ceil h

theorem mem_of_mem_dropDupByToken {α : Type} (token : α → String) :
    ∀ (l : List α) (seen : List String) (a : α),
      a ∈ dropDupByToken token l seen → a ∈ l := by
  intro l
  induction l with
  | nil => intro seen a h; simp [dropDupByToken] at h
  | cons r rs ih =>
    intro seen a h
    rw [dropDupByToken] at h
    split at h
    · exact List.mem_cons_of_mem _ (ih _ _ h)
    · rcases List.mem_cons.mp h with h | h
      · exact h ▸ List.mem_cons_self _ _
      · exact List.mem_cons_of_mem _ (ih _ _ h)

theorem foldl_assign_not_mem {β γ : Type} (step : γ → String × β → γ) (k : String)
    (hmiss : ∀ (acc : γ) (x : String) (v : β), ¬x = k → step acc (x, v) = acc)
    (f : String → β) :
    ∀ (ks : List String), k ∉ ks → ∀ (init : γ),
      (ks.map (fun x => (x, f x))).foldl step init = init := by
  intro ks
  induction ks with
  | nil => intro _ init; rfl
  | cons x ks ih =>
    intro hk init
    rw [List.map_cons, List.foldl_cons,
      hmiss init x (f x) (fun he => hk (he ▸ List.mem_cons_self _ _))]
    exact ih (fun hm => hk (List.mem_cons_of_mem _ hm)) init

theorem foldl_assign_mem {β γ : Type} (step : γ → String × β → γ) (G : β → γ) (k : String)
    (hmiss : ∀ (acc : γ) (x : String) (v : β), ¬x = k → step acc (x, v) = acc)
    (hhit : ∀ (acc : γ) (v : β), step acc (k, v) = G v)
    (f : String → β) :
    ∀ (ks : List String), ks.Nodup → k ∈ ks → ∀ (init : γ),
      (ks.map (fun x => (x, f x))).foldl step init = G (f k) := by
  intro ks
  induction ks with
  | nil => intro _ hk; exact absurd hk (List.not_mem_nil k)
  | cons x ks ih =>
    intro hnd hk init
    rw [List.map_cons, List.foldl_cons]
    by_cases hx : x = k
    · subst hx
      rw [hhit init (f x)]
      exact foldl_assign_not_mem step x hmiss f ks (List.nodup_cons.mp hnd).1 (G (f x))
    · rw [hmiss init x (f x) hx]
      exact ih (List.nodup_cons.mp hnd).2
        ((List.mem_cons.mp hk).resolve_left (fun he => hx he.symm)) init

theorem mem_sortedUniqueAsos {k : String} {l : List String} :
    k ∈ sortedUniqueAsos l ↔ k ∈ l := by
  unfold sortedUniqueAsos
  rw [(List.perm_insertionSort _ _).mem_iff, List.mem_dedup]

theorem nodup_sortedUniqueAsos (l : List String) : (sortedUniqueAsos l).Nodup :=
  (List.perm_insertionSort _ _).nodup_iff.mpr l.nodup_dedup

theorem groupMedianBy_foldl_mem {α : Type} (key : α → String) (val : α → ℚ) (ds : List α)
    (k : String) (hk : k ∈ ds.map key) :
    (groupMedianBy key val ds).foldl (fun acc q => if q.1 == k then q.2 else acc) 0
      = medianQ ((ds.filter (fun r => key r == k)).map val) := by
  unfold groupMedianBy
  exact foldl_assign_mem _ (fun v => v) k
    (fun acc x v hx => by simp [hx])
    (fun acc v => by simp)
    (fun x => medianQ ((ds.filter (fun r => key r == x)).map val))
    (sortedUniqueAsos (ds.map key)) (nodup_sortedUniqueAsos _)
    (mem_sortedUniqueAsos.mpr hk) 0

theorem groupMedianBy_foldl_not_mem {α : Type} (key : α → String) (val : α → ℚ)
    (ds : List α) (k : String) (hk : k ∉ ds.map key) :
    (groupMedianBy key val ds).foldl (fun acc q => if q.1 == k then q.2 else acc) 0 = 0 := by
  unfold groupMedianBy
  exact foldl_assign_not_mem _ k
    (fun acc x v hx => by simp [hx])
    (fun x => medianQ ((ds.filter (fun r => key r == x)).map val))
    (sortedUniqueAsos (ds.map key))
    (fun hm => hk (mem_sortedUniqueAsos.mp hm)) 0

theorem groupMedianOptBy_foldl_mem {α : Type} (key : α → String) (val : α → Option ℚ)
    (ds : List α) (k : String) (hk : k ∈ ds.map key) :
    (groupMedianOptBy key val ds).foldl
        (fun acc q => if q.1 == k then q.2.getD 0 else acc) 0
      = (if ((ds.filter (fun r => key r == k)).filterMap val).isEmpty then 0
         else medianQ ((ds.filter (fun r => key r == k)).filterMap val)) := by
  unfold groupMedianOptBy
  rw [foldl_assign_mem
    (fun acc q => if q.1 == k then q.2.getD 0 else acc)
    (fun o => o.getD 0) k
    (fun acc x v hx => by simp [hx])
    (fun acc v => by simp)
    (fun x => if ((ds.filter (fun r => key r == x)).filterMap val).isEmpty then none
              else some (medianQ ((ds.filter (fun r => key r == x)).filterMap val)))
    (sortedUniqueAsos (ds.map key)) (nodup_sortedUniqueAsos _)
    (mem_sortedUniqueAsos.mpr hk) 0]
  by_cases hc : ((ds.filter (fun r => key r == k)).filterMap val).isEmpty <;> simp [hc]

/-- Characterization of the entries produced by the final ranking loop: every
emitted entry belongs to an organization present in the grouped timing rows,
its metric fields are the truncated per-organization medians (with the
0 defaults of the source loop), its sample size is the organization's
benchmark row count, and that count meets the threshold. -/
theorem rankingLoop_mem_spec (nav : List TimingRow) (cpuDs : List CpuRow) (threshold : ℕ)
    (e : RankingEntry) (he : e ∈ rankingLoop nav cpuDs threshold) :
    e.aso ∈ nav.map (fun r => r.aso) ∧
    e.ttfb = truncQ (medianQ ((nav.filter (fun r => r.aso == e.aso)).map (fun r => r.ttfb))) ∧
    e.plt = truncQ (medianQ ((nav.filter (fun r => r.aso == e.aso)).map (fun r => r.plt))) ∧
    (e.aso ∉ cpuDs.map (fun r => r.aso) → e.cpu = 0) ∧
    (e.aso ∈ cpuDs.map (fun r => r.aso) →
      e.cpu = truncQ (medianQ ((cpuDs.filter (fun r => r.aso == e.aso)).map
        (fun r => (r.score : ℚ))))) ∧
    ((nav.filter (fun r => r.aso == e.aso)).filterMap (fun r => r.transfersize) = [] →
      e.transfersize = 0) ∧
    ((nav.filter (fun r => r.aso == e.aso)).filterMap (fun r => r.transfersize) ≠ [] →
      e.transfersize = truncQ (medianQ
        ((nav.filter (fun r => r.aso == e.aso)).filterMap (fun r => r.transfersize)))) ∧
    e.sample_size = (cpuDs.filter (fun r => r.aso == e.aso)).length ∧
    threshold ≤ e.sample_size := by
  simp only [rankingLoop] at he
  rw [List.mem_filterMap] at he
  obtain ⟨p, hp, hfe⟩ := he
  rw [(List.perm_insertionSort _ _).mem_iff] at hp
  unfold groupMedianBy at hp
  rw [List.mem_map] at hp
  obtain ⟨k, hk, hpk⟩ := hp
  subst hpk
  simp only [rankingEntryFor] at hfe
  split at hfe
  · exact absurd hfe (by simp)
  · rename_i hthr
    injection hfe with hfe
    subst hfe
    have hknav : k ∈ nav.map (fun r => r.aso) := mem_sortedUniqueAsos.mp hk
    refine ⟨hknav, rfl, ?_, ?_, ?_, ?_, ?_, rfl, Nat.not_lt.mp hthr⟩
    · show truncQ _ = _
      rw [groupMedianBy_foldl_mem (fun r => r.aso) (fun r => r.plt) nav k hknav]
    · intro hcpu
      show truncQ _ = 0
      rw [groupMedianBy_foldl_not_mem (fun r => r.aso) (fun r => (r.score : ℚ)) cpuDs k hcpu,
        truncQ_zero]
    · intro hcpu
      show truncQ _ = _
      rw [groupMedianBy_foldl_mem (fun r => r.aso) (fun r => (r.score : ℚ)) cpuDs k hcpu]
    · intro hts
      show truncQ _ = 0
      rw [groupMedianOptBy_foldl_mem (fun r => r.aso) (fun r => r.transfersize) nav k hknav]
      simp only [hts]
      simp [truncQ_zero]
    · intro hts
      show truncQ _ = _
      rw [groupMedianOptBy_foldl_mem (fun r => r.aso) (fun r => r.transfersize) nav k hknav]
      rw [if_neg (by simpa [List.isEmpty_iff] using hts)]

theorem rankingEntryFor_eq_some {c : List CpuRow} {T1 T2 : List (String × ℚ)}
    {T3 : List (String × Option ℚ)} {t : ℕ} {p : String × ℚ} {e : RankingEntry}
    (h : rankingEntryFor c T1 T2 T3 t p = some e) :
    e.aso = p.1 ∧ e.ttfb = truncQ p.2 := by
  simp only [rankingEntryFor] at h
  split at h
  · exact absurd h (by simp)
  · injection h with h
    subst h
    exact ⟨rfl, rfl⟩

theorem snd_of_mem_groupMedianBy {α : Type} {key : α → String} {val : α → ℚ}
    {ds : List α} {p : String × ℚ} (hp : p ∈ groupMedianBy key val ds) :
    p.2 = medianQ ((ds.filter (fun r => key r == p.1)).map val) := by
  unfold groupMedianBy at hp
  rw [List.mem_map] at hp
  obtain ⟨k, hk, hpk⟩ := hp
  subst hpk
  rfl

/-- The ranking loop emits entries in ascending order both of the truncated
TTFB column and of the underlying per-organization median TTFB. -/
theorem rankingLoop_pairwise (nav : List TimingRow) (cpuDs : List CpuRow) (threshold : ℕ) :
    (rankingLoop nav cpuDs threshold).Pairwise (fun a b =>
      a.ttfb ≤ b.ttfb ∧
      medianQ ((nav.filter (fun r => r.aso == a.aso)).map (fun r => r.ttfb)) ≤
        medianQ ((nav.filter (fun r => r.aso == b.aso)).map (fun r => r.ttfb))) := by
  unfold rankingLoop
  have hsorted := List.sorted_insertionSort (fun a b : String × ℚ => a.2 ≤ b.2)
    (groupMedianBy (fun r => r.aso) (fun r => r.ttfb) nav)
  have hsor : (List.insertionSort (fun a b : String × ℚ => a.2 ≤ b.2)
      (groupMedianBy (fun r => r.aso) (fun r => r.ttfb) nav)).Pairwise
      (fun p q : String × ℚ => p.2 ≤ q.2 ∧
        p.2 = medianQ ((nav.filter (fun r => r.aso == p.1)).map (fun r => r.ttfb)) ∧
        q.2 = medianQ ((nav.filter (fun r => r.aso == q.1)).map (fun r => r.ttfb))) := by
    refine hsorted.imp_of_mem ?_
    intro p q hp hq hpq
    rw [(List.perm_insertionSort _ _).mem_iff] at hp hq
    exact ⟨hpq, snd_of_mem_groupMedianBy hp, snd_of_mem_groupMedianBy hq⟩
  refine List.Pairwise.filterMap _ ?_ hsor
  intro p q hpq e he e' he'
  rw [Option.mem_def] at he he'
  obtain ⟨haso, httfb⟩ := rankingEntryFor_eq_some he
  obtain ⟨haso', httfb'⟩ := rankingEntryFor_eq_some he'
  refine ⟨?_, ?_⟩
  · rw [httfb, httfb']
    exact truncQ_mono hpq.1
  · rw [haso, haso', ← hpq.2.1, ← hpq.2.2]
    exact hpq.1

theorem rankingLoop_nil (cpuDs : List CpuRow) (threshold : ℕ) :
    rankingLoop [] cpuDs threshold = [] := rfl

/-- A successful `generate_ranking` run means the median lookup succeeded and
the result is the ranking loop over the whitelist- and variant-filtered
timing rows and the fetched benchmark dataset. -/
theorem generate_ranking_ok_elim {lookup : String → Option (ℤ × String)}
    {cpu_source : List RawCpuRow} {navtiming_dataset : List TimingRow} {cpu_span : ℤ}
    {country network : String} {cellular_medians wifi_medians : List MedianRow}
    {threshold : ℕ} {l : List RankingEntry}
    (hok : generate_ranking lookup cpu_source navtiming_dataset cpu_span country network
      cellular_medians wifi_medians threshold = Except.ok l) :
    ∃ mediancpu,
      seriesItem (mediansForCountry cellular_medians wifi_medians network country)
        = some mediancpu ∧
      l = rankingLoop
        (variantFilterStep (whitelistFilterStep navtiming_dataset network) network)
        (fetch_and_combine_cpubenchmark lookup cpu_source navtiming_dataset
          (mediancpu - (cpu_span : ℚ) / 2) (mediancpu + (cpu_span : ℚ) / 2)).2
        threshold := by
  unfold generate_ranking at hok
  split at hok
  · exact absurd hok (by simp)
  · rename_i mediancpu hm
    simp only [] at hok
    injection hok with hok
    exact ⟨mediancpu, hm, hok.symm⟩

/-! ### Claims -/

/-- C3.  For every (country, network) pair for which the corresponding
medians mapping contains no CPU median entry, `generate_ranking` fails with
the `.item()` error instead of producing a ranking with a defaulted median. -/
theorem C3_missing_median_fatal (lookup : String → Option (ℤ × String))
    (cpu_source : List RawCpuRow) (navtiming_dataset : List TimingRow) (cpu_span : ℤ)
    (country network : String) (cellular_medians wifi_medians : List MedianRow)
    (threshold : ℕ)
    (hmissing : ∀ r ∈ (if network == "cellular" then cellular_medians else wifi_medians),
      r.country ≠ country) :
    generate_ranking lookup cpu_source navtiming_dataset cpu_span country network
      cellular_medians wifi_medians threshold = Except.error itemErrorMsg := by
  have hms : mediansForCountry cellular_medians wifi_medians network country = [] := by
    unfold mediansForCountry
    by_cases hn : network = "cellular"
    · subst hn
      simp only [beq_self_eq_true, if_true] at hmissing ⊢
      have hf : cellular_medians.filter (fun r => r.country == country) = [] :=
        List.filter_eq_nil_iff.mpr (fun r hr => by simpa using hmissing r hr)
      rw [hf, List.map_nil]
    · have hb : (network == "cellular") = false := by simpa using hn
      simp only [hb, Bool.false_eq_true, if_false] at hmissing ⊢
      have hf : wifi_medians.filter (fun r => r.country == country) = [] :=
        List.filter_eq_nil_iff.mpr (fun r hr => by simpa using hmissing r hr)
      rw [hf, List.map_nil]
  unfold generate_ranking
  rw [hms]
  rfl

/-- C4.  The CPU band is resolved as `[mediancpu - span/2, mediancpu + span/2]`
and every benchmark record retrieved by `fetch_and_combine_cpubenchmark` has a
score strictly inside that band (exclusive at both ends, so a score equal to
either endpoint is never retrieved). -/
theorem C4_cpu_band_exclusive (lookup : String → Option (ℤ × String))
    (cpu_source : List RawCpuRow) (navtiming_dataset : List TimingRow)
    (mediancpu : ℚ) (cpu_span : ℤ) (r : CpuRow)
    (hr : r ∈ (fetch_and_combine_cpubenchmark lookup cpu_source navtiming_dataset
      (mediancpu - (cpu_span : ℚ) / 2) (mediancpu + (cpu_span : ℚ) / 2)).2) :
    mediancpu - (cpu_span : ℚ) / 2 < (r.score : ℚ) ∧
    (r.score : ℚ) < mediancpu + (cpu_span : ℚ) / 2 := by
  simp only [fetch_and_combine_cpubenchmark] at hr
  unfold add_isp_cpu at hr
  rw [List.mem_map] at hr
  obtain ⟨r0, hr0, hre⟩ := hr
  have hscore : r.score = r0.score := by
    cases h : lookup r0.ip <;> rw [h] at hre <;> subst hre <;> rfl
  have hr0f := mem_of_mem_dropDupByToken _ _ _ _ hr0
  rw [List.mem_filter] at hr0f
  have hb := hr0f.2
  simp only [Bool.and_eq_true, decide_eq_true_eq] at hb
  rw [hscore]
  exact ⟨lt_of_truncQ_lt hb.1, lt_of_lt_truncQ hb.2⟩

/-- C5.  Every entry emitted by `generate_ranking` has a sample size at least
the configured threshold; an organization with fewer matching benchmark
records is skipped by the loop. -/
theorem C5_threshold (lookup : String → Option (ℤ × String))
    (cpu_source : List RawCpuRow) (navtiming_dataset : List TimingRow) (cpu_span : ℤ)
    (country network : String) (cellular_medians wifi_medians : List MedianRow)
    (threshold : ℕ) (l : List RankingEntry)
    (hok : generate_ranking lookup cpu_source navtiming_dataset cpu_span country network
      cellular_medians wifi_medians threshold = Except.ok l)
    (e : RankingEntry) (he : e ∈ l) : threshold ≤ e.sample_size := by
  obtain ⟨m, hm, hl⟩ := generate_ranking_ok_elim hok
  subst hl
  exact (rankingLoop_mem_spec _ _ _ _ he).2.2.2.2.2.2.2.2

/-- C6.  The ranking returned by `generate_ranking` is sorted in
non-decreasing order of median TTFB: both the emitted (truncated) TTFB
column and the underlying per-organization median TTFB are ascending. -/
theorem C6_sorted_by_ttfb (lookup : String → Option (ℤ × String))
    (cpu_source : List RawCpuRow) (navtiming_dataset : List TimingRow) (cpu_span : ℤ)
    (country network : String) (cellular_medians wifi_medians : List MedianRow)
    (threshold : ℕ) (l : List RankingEntry)
    (hok : generate_ranking lookup cpu_source navtiming_dataset cpu_span country network
      cellular_medians wifi_medians threshold = Except.ok l) :
    l.Pairwise (fun a b => a.ttfb ≤ b.ttfb ∧
      medianQ (((variantFilterStep (whitelistFilterStep navtiming_dataset network)
          network).filter (fun r => r.aso == a.aso)).map (fun r => r.ttfb)) ≤
        medianQ (((variantFilterStep (whitelistFilterStep navtiming_dataset network)
          network).filter (fun r => r.aso == b.aso)).map (fun r => r.ttfb))) := by
  obtain ⟨m, hm, hl⟩ := generate_ranking_ok_elim hok
  subst hl
  exact rankingLoop_pairwise _ _ _

/-- C7.  The transfer-size column of an emitted entry is never undefined: it
is exactly 0 when no timing row of the organization's cohort carries a
transfer size, and the (truncated) median of the carried values otherwise. -/
theorem C7_transfersize_never_nan (lookup : String → Option (ℤ × String))
    (cpu_source : List RawCpuRow) (navtiming_dataset : List TimingRow) (cpu_span : ℤ)
    (country network : String) (cellular_medians wifi_medians : List MedianRow)
    (threshold : ℕ) (l : List RankingEntry)
    (hok : generate_ranking lookup cpu_source navtiming_dataset cpu_span country network
      cellular_medians wifi_medians threshold = Except.ok l)
    (e : RankingEntry) (he : e ∈ l) :
    (((variantFilterStep (whitelistFilterStep navtiming_dataset network) network).filter
        (fun r => r.aso == e.aso)).filterMap (fun r => r.transfersize) = [] →
      e.transfersize = 0) ∧
    (((variantFilterStep (whitelistFilterStep navtiming_dataset network) network).filter
        (fun r => r.aso == e.aso)).filterMap (fun r => r.transfersize) ≠ [] →
      e.transfersize = truncQ (medianQ
        (((variantFilterStep (whitelistFilterStep navtiming_dataset network) network).filter
          (fun r => r.aso == e.aso)).filterMap (fun r => r.transfersize)))) := by
  obtain ⟨m, hm, hl⟩ := generate_ranking_ok_elim hok
  subst hl
  have hs := rankingLoop_mem_spec _ _ _ _ he
  exact ⟨hs.2.2.2.2.2.1, hs.2.2.2.2.2.2.1⟩

/-- C8.  When the median lookup succeeds but no timing row survives the
whitelist and page-variant filtering, `generate_ranking` returns an empty
ranking instead of failing. -/
theorem C8_empty_telemetry_ok (lookup : String → Option (ℤ × String))
    (cpu_source : List RawCpuRow) (navtiming_dataset : List TimingRow) (cpu_span : ℤ)
    (country network : String) (cellular_medians wifi_medians : List MedianRow)
    (threshold : ℕ) (mediancpu : ℚ)
    (hm : seriesItem (mediansForCountry cellular_medians wifi_medians network country)
      = some mediancpu)
    (hempty : variantFilterStep (whitelistFilterStep navtiming_dataset network) network
      = []) :
    generate_ranking lookup cpu_source navtiming_dataset cpu_span country network
      cellular_medians wifi_medians threshold = Except.ok [] := by
  unfold generate_ranking
  rw [hm]
  show Except.ok (rankingLoop
    (variantFilterStep (whitelistFilterStep navtiming_dataset network) network)
    (fetch_and_combine_cpubenchmark lookup cpu_source navtiming_dataset
      (mediancpu - (cpu_span : ℚ) / 2) (mediancpu + (cpu_span : ℚ) / 2)).2
    threshold) = Except.ok []
  rw [hempty, rankingLoop_nil]

/-- C10.  Each of the four metric columns of an emitted entry is the
`int()`-truncation of the corresponding rational per-organization median
(0 for the CPU and transfer-size defaults of the source loop), so no
fractional value ever reaches the report. -/
theorem C10_metrics_truncated (lookup : String → Option (ℤ × String))
    (cpu_source : List RawCpuRow) (navtiming_dataset : List TimingRow) (cpu_span : ℤ)
    (country network : String) (cellular_medians wifi_medians : List MedianRow)
    (threshold : ℕ) (mediancpu : ℚ) (l : List RankingEntry)
    (hm : seriesItem (mediansForCountry cellular_medians wifi_medians network country)
      = some mediancpu)
    (hok : generate_ranking lookup cpu_source navtiming_dataset cpu_span country network
      cellular_medians wifi_medians threshold = Except.ok l)
    (e : RankingEntry) (he : e ∈ l) :
    e.ttfb = truncQ (medianQ
      (((variantFilterStep (whitelistFilterStep navtiming_dataset network) network).filter
        (fun r => r.aso == e.aso)).map (fun r => r.ttfb))) ∧
    e.plt = truncQ (medianQ
      (((variantFilterStep (whitelistFilterStep navtiming_dataset network) network).filter
        (fun r => r.aso == e.aso)).map (fun r => r.plt))) ∧
    (e.cpu = 0 ∨ e.cpu = truncQ (medianQ
      (((fetch_and_combine_cpubenchmark lookup cpu_source navtiming_dataset
          (mediancpu - (cpu_span : ℚ) / 2) (mediancpu + (cpu_span : ℚ) / 2)).2.filter
        (fun r => r.aso == e.aso)).map (fun r => (r.score : ℚ))))) ∧
    (e.transfersize = 0 ∨ e.transfersize = truncQ (medianQ
      (((variantFilterStep (whitelistFilterStep navtiming_dataset network) network).filter
        (fun r => r.aso == e.aso)).filterMap (fun r => r.transfersize)))) := by
  obtain ⟨m, hm', hl⟩ := generate_ranking_ok_elim hok
  rw [hm] at hm'
  injection hm' with hm'
  subst hm'
  subst hl
  have hs := rankingLoop_mem_spec _ _ _ _ he
  refine ⟨hs.2.1, hs.2.2.1, ?_, ?_⟩
  · by_cases hc : e.aso ∈ (fetch_and_combine_cpubenchmark lookup cpu_source
        navtiming_dataset (mediancpu - (cpu_span : ℚ) / 2)
        (mediancpu + (cpu_span : ℚ) / 2)).2.map (fun r => r.aso)
    · exact Or.inr (hs.2.2.2.2.1 hc)
    · exact Or.inl (hs.2.2.2.1 hc)
  · by_cases hts : ((variantFilterStep (whitelistFilterStep navtiming_dataset network)
        network).filter (fun r => r.aso == e.aso)).filterMap (fun r => r.transfersize) = []
    · exact Or.inl (hs.2.2.2.2.2.1 hts)
    · exact Or.inr (hs.2.2.2.2.2.2.1 hts)

/-- C2 counterexample.  The claim says a row with the lookup-failure sentinel
ASN 0 never matches any whitelist, regardless of the connectivity types of
ASN-0 records.  But `get_asns_by_type` whitelists the ASN of *every* row with
the matching connectivity type: a record whose ISP lookup failed (ASN 0) but
whose connectivity type is `cellular` puts 0 into the cellular whitelist, and
the ASN-0 row then survives the whitelist filter. -/
theorem C2_counterexample :
    (0 : ℤ) ∈ get_asns_by_type
      [⟨"", "203.0.113.9", 100, 200, some "cellular", "t0", none, some "stable", 0, ""⟩]
      "cellular" ∧
    (whitelistFilterStep
      [⟨"", "203.0.113.9", 100, 200, some "cellular", "t0", none, some "stable", 0, ""⟩]
      "cellular").map (fun r => r.asn) = [0] := by
  constructor <;> decide

/-- C2 (amended).  A timing row with ASN 0 survives whitelist filtering only
when some record with the network's connectivity type has ASN 0; when no
record with the matching connectivity type carries ASN 0, no ASN-0 row
survives the whitelist filter. -/
theorem C2_amended (ds : List TimingRow) (network : String)
    (h : ∀ r ∈ ds,
      r.type = some (if network == "cellular" then "cellular" else "wifi") → r.asn ≠ 0) :
    ∀ r ∈ whitelistFilterStep ds network, r.asn ≠ 0 := by
  intro r hr
  simp only [whitelistFilterStep] at hr
  rw [List.mem_filter] at hr
  have hmem : r.asn ∈ get_asns_by_type ds network := by simpa using hr.2
  simp only [get_asns_by_type] at hmem
  by_cases hn : (network == "cellular") = true
  · rw [if_pos hn] at hmem
    rw [List.mem_dedup, List.mem_map] at hmem
    obtain ⟨s, hs, hsa⟩ := hmem
    rw [List.mem_filter] at hs
    rw [← hsa]
    exact h s hs.1 (by rw [if_pos hn]; simpa using hs.2)
  · rw [if_neg hn] at hmem
    rw [List.mem_dedup, List.mem_map] at hmem
    obtain ⟨s, hs, hsa⟩ := hmem
    rw [List.mem_filter] at hs
    rw [← hsa]
    exact h s hs.1 (by rw [if_neg hn]; simpa using hs.2)

/-- C9.  ISP enrichment is total: it never drops or aborts on a row, and any
row whose IP fails the lookup is assigned the sentinel ASN 0 and ASO "". -/
theorem C9_lookup_failure_sentinel (lookup : String → Option (ℤ × String))
    (dataset : List TimingRow) :
    (add_isp lookup dataset).length = dataset.length ∧
    ∀ r ∈ add_isp lookup dataset, lookup r.ip = none → r.asn = 0 ∧ r.aso = "" := by
  constructor
  · unfold add_isp
    rw [List.length_map]
  · intro r hr hf
    unfold add_isp at hr
    rw [List.mem_map] at hr
    obtain ⟨r0, hr0, hre⟩ := hr
    cases h : lookup r0.ip <;> rw [h] at hre <;> subst hre
    · exact ⟨rfl, rfl⟩
    · simp [h] at hf

unseal Rat.add Rat.sub Rat.mul Rat.inv in
/-- C1 (bug evidence).  `generate_ranking` computes the CPU-normalized timing
dataset (`navtiming_dataset_filtered`) but groups the *unfiltered* dataset:
with two timing rows of one organization, of which only token `t1` has an
in-band benchmark row, the source's medians include the non-normalized row
(TTFB (100+900)/2 = 500), while the spec-described pipeline
(`generate_ranking_spec`) yields the medians of the CPU-normalized rows alone
(TTFB 100). -/
theorem C1_cpu_normalized_dataset_unused :
    generate_ranking
      (fun ip => if ip == "10.0.0.1" then some ((100 : ℤ), "OrgA") else none)
      [⟨"10.0.0.1", "t1", 300⟩]
      [⟨"", "10.0.0.1", 100, 200, some "cellular", "t1", some 1000, some "stable", 100, "OrgA"⟩,
       ⟨"", "10.0.0.1", 900, 400, some "cellular", "t2", some 3000, some "stable", 100, "OrgA"⟩]
      100 "US" "cellular" [⟨"US", 300⟩] [] 1
      = Except.ok [⟨"OrgA", 500, 300, 300, 2000, 1⟩] ∧
    generate_ranking_spec
      (fun ip => if ip == "10.0.0.1" then some ((100 : ℤ), "OrgA") else none)
      [⟨"10.0.0.1", "t1", 300⟩]
      [⟨"", "10.0.0.1", 100, 200, some "cellular", "t1", some 1000, some "stable", 100, "OrgA"⟩,
       ⟨"", "10.0.0.1", 900, 400, some "cellular", "t2", some 3000, some "stable", 100, "OrgA"⟩]
      100 "US" "cellular" [⟨"US", 300⟩] [] 1
      = Except.ok [⟨"OrgA", 100, 200, 300, 1000, 1⟩] := by
  constructor <;> decide

/-! ### Witnesses -/

/-- Witness for C2 (amended) at a dataset whose only cellular record has
ASN 7: every row surviving the cellular whitelist filter has nonzero ASN. -/
theorem C2_witness :
    (⟨"", "198.51.100.7", 50, 60, some "cellular", "t1", none, some "stable", 7, "OrgB"⟩
      : TimingRow).asn ≠ 0 :=
  C2_amended
    [⟨"", "198.51.100.7", 50, 60, some "cellular", "t1", none, some "stable", 7, "OrgB"⟩]
    "cellular" (by decide)
    ⟨"", "198.51.100.7", 50, 60, some "cellular", "t1", none, some "stable", 7, "OrgB"⟩
    (by decide)

/-- Witness for C3: with no wifi median row for "US", `generate_ranking`
fails with the `.item()` error. -/
theorem C3_witness :
    generate_ranking (fun _ => none) [] [] 100 "US" "wifi" [⟨"US", 300⟩] [] 500
      = Except.error itemErrorMsg :=
  C3_missing_median_fatal (fun _ => none) [] [] 100 "US" "wifi" [⟨"US", 300⟩] [] 500
    (by decide)

unseal Rat.add Rat.sub Rat.mul Rat.inv in
/-- Witness for C4: a benchmark row with score 300 retrieved for median 300
and span 100 lies strictly inside the band (250, 350). -/
theorem C4_witness :
    (300 : ℚ) - ((100 : ℤ) : ℚ) / 2 < (((300 : ℤ)) : ℚ) ∧
    (((300 : ℤ)) : ℚ) < (300 : ℚ) + ((100 : ℤ) : ℚ) / 2 :=
  C4_cpu_band_exclusive (fun _ => none) [⟨"1.2.3.4", "t1", 300⟩] [] 300 100
    ⟨"1.2.3.4", "t1", 300, 0, ""⟩ (by decide)

unseal Rat.add Rat.sub Rat.mul Rat.inv in
/-- Witness for C5: at threshold 1 the emitted entry has sample size ≥ 1. -/
theorem C5_witness : (1 : ℕ) ≤
    (⟨"OrgA", 500, 300, 300, 2000, 1⟩ : RankingEntry).sample_size :=
  C5_threshold
    (fun ip => if ip == "10.0.0.1" then some ((100 : ℤ), "OrgA") else none)
    [⟨"10.0.0.1", "t1", 300⟩]
    [⟨"", "10.0.0.1", 100, 200, some "cellular", "t1", some 1000, some "stable", 100, "OrgA"⟩,
     ⟨"", "10.0.0.1", 900, 400, some "cellular", "t2", some 3000, some "stable", 100, "OrgA"⟩]
    100 "US" "cellular" [⟨"US", 300⟩] [] 1
    [⟨"OrgA", 500, 300, 300, 2000, 1⟩] (by decide)
    ⟨"OrgA", 500, 300, 300, 2000, 1⟩ (by decide)

unseal Rat.add Rat.sub Rat.mul Rat.inv in
/-- Witness for C6: the singleton ranking produced by a concrete run is
pairwise sorted by TTFB. -/
theorem C6_witness :
    ([⟨"OrgA", 500, 300, 300, 2000, 1⟩] : List RankingEntry).Pairwise (fun a b =>
      a.ttfb ≤ b.ttfb ∧
      medianQ (((variantFilterStep (whitelistFilterStep
          [⟨"", "10.0.0.1", 100, 200, some "cellular", "t1", some 1000, some "stable",
            100, "OrgA"⟩,
           ⟨"", "10.0.0.1", 900, 400, some "cellular", "t2", some 3000, some "stable",
            100, "OrgA"⟩] "cellular")
          "cellular").filter (fun r => r.aso == a.aso)).map (fun r => r.ttfb)) ≤
        medianQ (((variantFilterStep (whitelistFilterStep
          [⟨"", "10.0.0.1", 100, 200, some "cellular", "t1", some 1000, some "stable",
            100, "OrgA"⟩,
           ⟨"", "10.0.0.1", 900, 400, some "cellular", "t2", some 3000, some "stable",
            100, "OrgA"⟩] "cellular")
          "cellular").filter (fun r => r.aso == b.aso)).map (fun r => r.ttfb))) :=
  C6_sorted_by_ttfb
    (fun ip => if ip == "10.0.0.1" then some ((100 : ℤ), "OrgA") else none)
    [⟨"10.0.0.1", "t1", 300⟩]
    [⟨"", "10.0.0.1", 100, 200, some "cellular", "t1", some 1000, some "stable", 100, "OrgA"⟩,
     ⟨"", "10.0.0.1", 900, 400, some "cellular", "t2", some 3000, some "stable", 100, "OrgA"⟩]
    100 "US" "cellular" [⟨"US", 300⟩] [] 1
    [⟨"OrgA", 500, 300, 300, 2000, 1⟩] (by decide)

unseal Rat.add Rat.sub Rat.mul Rat.inv in
/-- Witness for C7: the emitted entry's transfer size is the truncated median
of the carried transfer sizes 1000 and 3000. -/
theorem C7_witness :
    (⟨"OrgA", 500, 300, 300, 2000, 1⟩ : RankingEntry).transfersize
      = truncQ (medianQ [(1000 : ℚ), 3000]) :=
  (C7_transfersize_never_nan
    (fun ip => if ip == "10.0.0.1" then some ((100 : ℤ), "OrgA") else none)
    [⟨"10.0.0.1", "t1", 300⟩]
    [⟨"", "10.0.0.1", 100, 200, some "cellular", "t1", some 1000, some "stable", 100, "OrgA"⟩,
     ⟨"", "10.0.0.1", 900, 400, some "cellular", "t2", some 3000, some "stable", 100, "OrgA"⟩]
    100 "US" "cellular" [⟨"US", 300⟩] [] 1
    [⟨"OrgA", 500, 300, 300, 2000, 1⟩] (by decide)
    ⟨"OrgA", 500, 300, 300, 2000, 1⟩ (by decide)).2 (by decide)

/-- Witness for C8: a cellular run over a dataset with only a wifi record
has an empty whitelist, so the ranking is the empty list, not an error. -/
theorem C8_witness :
    generate_ranking (fun _ => none) []
      [⟨"", "9.9.9.9", 10, 20, some "wifi", "t9", none, none, 5, "OrgW"⟩]
      100 "US" "cellular" [⟨"US", 300⟩] [] 500 = Except.ok [] :=
  C8_empty_telemetry_ok (fun _ => none) []
    [⟨"", "9.9.9.9", 10, 20, some "wifi", "t9", none, none, 5, "OrgW"⟩]
    100 "US" "cellular" [⟨"US", 300⟩] [] 500 300 (by decide) (by decide)

/-- Witness for C9: enriching a one-row dataset with an always-failing lookup
keeps the row and assigns the sentinel. -/
theorem C9_witness :
    (add_isp (fun _ => none)
      [⟨"", "198.51.100.7", 1, 2, none, "t7", none, none, 55, "Old"⟩]).length
      = ([⟨"", "198.51.100.7", 1, 2, none, "t7", none, none, 55, "Old"⟩]
          : List TimingRow).length ∧
    ((⟨"", "198.51.100.7", 1, 2, none, "t7", none, none, 0, ""⟩ : TimingRow).asn = 0 ∧
     (⟨"", "198.51.100.7", 1, 2, none, "t7", none, none, 0, ""⟩ : TimingRow).aso = "") :=
  ⟨(C9_lookup_failure_sentinel (fun _ => none)
      [⟨"", "198.51.100.7", 1, 2, none, "t7", none, none, 55, "Old"⟩]).1,
   (C9_lookup_failure_sentinel (fun _ => none)
      [⟨"", "198.51.100.7", 1, 2, none, "t7", none, none, 55, "Old"⟩]).2
     ⟨"", "198.51.100.7", 1, 2, none, "t7", none, none, 0, ""⟩ (by decide) rfl⟩

unseal Rat.add Rat.sub Rat.mul Rat.inv in
/-- Witness for C10: the emitted entry's four metric columns are the
truncations of the medians of [100,900], [200,400], [300] and [1000,3000]. -/
theorem C10_witness :
    (⟨"OrgA", 500, 300, 300, 2000, 1⟩ : RankingEntry).ttfb
      = truncQ (medianQ [(100 : ℚ), 900]) ∧
    (⟨"OrgA", 500, 300, 300, 2000, 1⟩ : RankingEntry).plt
      = truncQ (medianQ [(200 : ℚ), 400]) ∧
    ((⟨"OrgA", 500, 300, 300, 2000, 1⟩ : RankingEntry).cpu = 0 ∨
     (⟨"OrgA", 500, 300, 300, 2000, 1⟩ : RankingEntry).cpu
      = truncQ (medianQ [(300 : ℚ)])) ∧
    ((⟨"OrgA", 500, 300, 300, 2000, 1⟩ : RankingEntry).transfersize = 0 ∨
     (⟨"OrgA", 500, 300, 300, 2000, 1⟩ : RankingEntry).transfersize
      = truncQ (medianQ [(1000 : ℚ), 3000])) :=
  C10_metrics_truncated
    (fun ip => if ip == "10.0.0.1" then some ((100 : ℤ), "OrgA") else none)
    [⟨"10.0.0.1", "t1", 300⟩]
    [⟨"", "10.0.0.1", 100, 200, some "cellular", "t1", some 1000, some "stable", 100, "OrgA"⟩,
     ⟨"", "10.0.0.1", 900, 400, some "cellular", "t2", some 3000, some "stable", 100, "OrgA"⟩]
    100 "US" "cellular" [⟨"US", 300⟩] [] 1 300
    [⟨"OrgA", 500, 300, 300, 2000, 1⟩] (by decide) (by decide)
    ⟨"OrgA", 500, 300, 300, 2000, 1⟩ (by decide)

end ASORanking
